import Mathlib

/-!
Shallow embedding of the metrics-collection pipeline of
`GeminiAPIHardwareSoftwareOptimizer/monitor.py` (class `SystemMonitor`).

Python floats are modelled as rationals (`ℚ`), byte counters as naturals,
Python ints as `ℤ`/`ℕ`.  Calls into `psutil`/`GPUtil`/`random` are modelled
as inputs supplied in environment structures; a call site that may raise is
an `Except String` field (the `String` is the exception's message), and each
`random.uniform`/`random.randint` draw is an explicit input field.
A snapshot (the Python dict built by `get_detailed_system_data`) is an
association list updated by `setK`, which replaces the value of an existing
key and appends a fresh key, exactly like assignment into a Python dict.
-/

/-- A value stored in the snapshot dict: Python float, non-negative int,
int, or string. -/
inductive Value where
  | num (q : ℚ)
  | nat (n : ℕ)
  | int (z : ℤ)
  | str (s : String)
deriving DecidableEq, Repr

/-- The snapshot dict: association list from attribute name to value. -/
abbrev Snapshot := List (String × Value)

/-- Python `round(x, 2)`.  Python rounds half to even on binary floats; this
model rounds half up, which agrees with Python everywhere the claims below
look (all are either tolerance-based or evaluated away from ties). -/
def round2 (q : ℚ) : ℚ := (⌊q * 100 + 1/2⌋ : ℚ) / 100

/-- Python `round(x, 1)`, with the same tie caveat as `round2`. -/
def round1 (q : ℚ) : ℚ := (⌊q * 10 + 1/2⌋ : ℚ) / 10

/-- Python `int(x)`: truncation toward zero. -/
def truncInt (q : ℚ) : ℤ := if 0 ≤ q then ⌊q⌋ else ⌈q⌉

/-- Dict assignment `data[k] = v`: replace the value if `k` is present,
otherwise append the new key (Python dicts preserve insertion order). -/
def setK (data : Snapshot) (k : String) (v : Value) : Snapshot :=
  if data.any (fun p => p.1 = k) then
    data.map (fun p => if p.1 = k then (k, v) else p)
  else
    data ++ [(k, v)]

/-- Python `data.update(entries)`: assign each entry in order. -/
def updateMany (data : Snapshot) (entries : List (String × Value)) : Snapshot :=
  entries.foldl (fun d e => setK d e.1 e.2) data

/-- The key list of a snapshot, in insertion order. -/
def keysOf (s : Snapshot) : List String := s.map (fun p => p.1)

/-- Dict access `data[k]` / `data.get(k)`: the value stored at `k` (keys are
unique in every dict built by the pipeline, so first match is the match). -/
def lookupK (k : String) : Snapshot → Option Value
  | [] => none
  | p :: d => if p.1 = k then some p.2 else lookupK k d

/-- Python `float(data.get(k, 0.0))` for the numeric reads in
`_calculate_conceptual_flux_metrics`: every key read there holds a numeric
value in the pipeline, and a missing key defaults to `0.0`. -/
def getNum (data : Snapshot) (k : String) : ℚ :=
  match lookupK k data with
  | some (.num q) => q
  | some (.nat n) => n
  | some (.int z) => z
  | _ => 0

/-! ## Static system info (`_get_static_system_info`, monitor.py:38-47) -/
/-- Ambient host facts read once at construction. `total_ram_bytes` is
`psutil.virtual_memory().total`. -/
structure HostEnv where
  platform_str : String
  machine : String
  processor : String
  python_version : String
  total_ram_bytes : ℚ
  boot_time : String

def static_system_info (h : HostEnv) : List (String × Value) :=
  [("Operating System", .str h.platform_str),
   ("System Architecture", .str h.machine),
   ("CPU Model (Sim)",
     .str (if h.processor = "" then "Unknown Processor" else h.processor)),
   ("Python Version", .str h.python_version),
   ("Total RAM (GB)", .num (round2 (h.total_ram_bytes / (1024 * 1024 * 1024)))),
   ("Boot Time", .str h.boot_time)]

/-! ## CPU stage (`_get_cpu_data`, monitor.py:49-61) -/
/-- Readings delivered by `psutil` for the CPU stage.  `freq_mhz` is `none`
when `psutil.cpu_freq()` returns a falsy value; `iowait` is `none` when the
`cpu_times_percent` result has no `iowait` field. -/
structure CpuData where
  percent : ℚ
  freq_mhz : Option ℚ
  logical : ℕ
  physical : ℕ
  user : ℚ
  system : ℚ
  idle : ℚ
  iowait : Option ℚ

def get_cpu_data (c : CpuData) : List (String × Value) :=
  [("CPU Usage (%)", .num c.percent),
   ("CPU Freq (GHz)",
     .num (match c.freq_mhz with
           | some f => round2 (f / 1000)
           | none => 0)),
   ("Logical Cores", .nat c.logical),
   ("Physical Cores", .nat c.physical),
   ("CPU User Time (%)", .num c.user),
   ("CPU System Time (%)", .num c.system),
   ("CPU Idle Time (%)", .num c.idle),
   ("CPU Iowait Time (%)", .num (c.iowait.getD 0))]

/-! ## Memory stage (`_get_memory_data`, monitor.py:63-75) -/
/-- Readings for the memory stage; byte fields are the raw counters, `cached`
and `shared` are `none` when the platform's `virtual_memory` lacks them. -/
structure MemData where
  percent : ℚ
  used : ℚ
  available : ℚ
  cached : Option ℚ
  swap_percent : ℚ
  swap_used : ℚ
  shared : Option ℚ

def get_memory_data (m : MemData) : List (String × Value) :=
  [("Memory Usage (%)", .num m.percent),
   ("Used Memory (GB)", .num (round2 (m.used / (1024 * 1024 * 1024)))),
   ("Available Memory (GB)", .num (round2 (m.available / (1024 * 1024 * 1024)))),
   ("Cached Memory (GB)",
     .num (match m.cached with
           | some c => round2 (c / (1024 * 1024 * 1024))
           | none => 0)),
   ("Swap Usage (%)", .num m.swap_percent),
   ("Used Swap (GB)", .num (round2 (m.swap_used / (1024 * 1024 * 1024)))),
   ("Shared Memory (GB)",
     .num (match m.shared with
           | some s => round2 (s / (1024 * 1024 * 1024))
           | none => 0))]

/-! ## GPU stage (`_get_gpu_data`, monitor.py:134-157) -/
/-- One `GPUtil` device: `load` is a fraction, `memoryUsed` is in MB. -/
structure GpuDevice where
  load : ℚ
  memoryUsed : ℚ
  temperature : ℚ

/-- GPU stage environment.  `gpus = none` models "GPUtil not importable, or
`GPUtil.getGPUs()` raised"; `some []` models no devices.  `sim_usage` and
`sim_temp` are the `random.uniform(0.1, 5.0)` and `random.uniform(30, 45)`
draws. -/
structure GpuEnv where
  gpus : Option (List GpuDevice)
  sim_usage : ℚ
  sim_temp : ℚ

/-- The `gpu_data` triple (usage, memory GB, temp) as it stands after the
`if GPUtil:` block and before the simulated-idle substitution. -/
def gpu_real_values (e : GpuEnv) : ℚ × ℚ × ℚ :=
  match e.gpus with
  | some (g :: _) =>
      (round2 (g.load * 100), round2 (g.memoryUsed / 1024), round1 g.temperature)
  | _ => (0, 0, 0)

def get_gpu_data (e : GpuEnv) : List (String × Value) :=
  -- "If no GPU data, simulate a low idle load": usage and temp are
  -- overwritten, memory is not (monitor.py:153-155).
  if (gpu_real_values e).1 = 0 then
    [("GPU Usage (%)", .num (round2 e.sim_usage)),
     ("GPU Memory (GB)", .num (gpu_real_values e).2.1),
     ("GPU Temp (°C)", .num (round1 e.sim_temp))]
  else
    [("GPU Usage (%)", .num (gpu_real_values e).1),
     ("GPU Memory (GB)", .num (gpu_real_values e).2.1),
     ("GPU Temp (°C)", .num (gpu_real_values e).2.2)]

/-! ## Sensor stage (`_get_sensor_data`, monitor.py:159-185) -/
structure SensorEntry where
  label : String
  current : ℚ

structure FanEntry where
  percent : Option ℚ

/-- Sensor stage environment: the `psutil.sensors_temperatures()` and
`psutil.sensors_fans()` dicts, plus the two `random.uniform` fallback
draws. -/
structure SensorEnv where
  temps : List (String × List SensorEntry)
  fans : List (String × List FanEntry)
  sim_temp : ℚ
  sim_fan : ℚ

/-- Does the first char list start with the second? -/
def startsWithChars : List Char → List Char → Bool
  | _, [] => true
  | [], _ :: _ => false
  | a :: as, b :: bs => a = b && startsWithChars as bs

/-- Does the first char list contain the second as a contiguous run? -/
def hasInfixChars : List Char → List Char → Bool
  | l, pat =>
    match l with
    | [] => startsWithChars [] pat
    | _ :: rest => startsWithChars l pat || hasInfixChars rest pat

/-- The test `'CPU' in entry.label or 'Core' in entry.label`. -/
def labelCpuOrCore (s : String) : Bool :=
  hasInfixChars s.data "CPU".data || hasInfixChars s.data "Core".data

def get_sensor_data (e : SensorEnv) : List (String × Value) :=
  let cpu_temp : ℚ :=
    match List.lookup "coretemp" e.temps with
    | some entries =>
        entries.foldl
          (fun acc ent => if labelCpuOrCore ent.label then max acc ent.current else acc) 0
    | none =>
        match List.lookup "cpu_thermal" e.temps with
        | some entries => entries.foldl (fun acc ent => max acc ent.current) 0
        | none => 0
  let fan_speed_percent : ℚ :=
    e.fans.foldl
      (fun acc pr =>
        pr.2.foldl
          (fun a f =>
            match f.percent with
            | some p => max a p
            | none => a) acc) 0
  [("CPU Temp (°C)",
     .num (if cpu_temp > 0 then round1 cpu_temp else round1 e.sim_temp)),
   ("Fan Speed (%)",
     .num (if fan_speed_percent > 0 then round1 fan_speed_percent else round1 e.sim_fan))]

/-! ## I/O rate stage (`_get_io_data`, monitor.py:77-104) -/
/-- Cumulative byte counters of `psutil.disk_io_counters()`. -/
structure DiskCounters where
  read_bytes : ℕ
  write_bytes : ℕ
deriving DecidableEq, Repr

/-- Cumulative counters of `psutil.net_io_counters()`. -/
structure NetCounters where
  bytes_sent : ℕ
  bytes_recv : ℕ
  errin : ℕ
  errout : ℕ
deriving DecidableEq, Repr

/-- One throughput rate, monitor.py:83-84 and 91-92:
`round((bytes_diff / time_diff) / (1024**2), 2) if time_diff > 0 else 0.0`. -/
def rate_mb (bytes_diff : ℤ) (time_diff : ℚ) : ℚ :=
  if time_diff > 0 then round2 (((bytes_diff : ℚ) / time_diff) / (1024 * 1024)) else 0

/-- The simulated latency entry, monitor.py:103:
`round(random.uniform(2, 20) * (disk_read_rate_mb + disk_write_rate_mb > 0), 2)`
(the boolean multiplies as 1 or 0). -/
def disk_latency (u read_rate write_rate : ℚ) : ℚ :=
  round2 (u * (if read_rate + write_rate > 0 then 1 else 0))

/-- I/O stage environment: the four `psutil` call sites that may raise, and
the `random.uniform(2, 20)` draw. -/
structure IoEnv where
  disk : Except String DiskCounters
  net : Except String NetCounters
  connections : Except String ℕ
  partitions : Except String ℕ
  sim_latency : ℚ

/-- Outcome of `_get_io_data`, recording exactly which of the collector's
counter fields were already overwritten when an exception escaped:
`self.last_disk_io` is assigned at monitor.py:85 (before the network read)
and `self.last_net_io` at monitor.py:93 (before the dict literal whose
construction calls `net_connections` and `disk_partitions`). -/
inductive IoOutcome where
  | ok (entries : List (String × Value)) (disk : DiskCounters) (net : NetCounters)
  | failDisk (e : String)
  | failNet (e : String) (disk : DiskCounters)
  | failLate (e : String) (disk : DiskCounters) (net : NetCounters)

def get_io_data (e : IoEnv) (last_disk_io : DiskCounters) (last_net_io : NetCounters)
    (time_diff : ℚ) : IoOutcome :=
  match e.disk with
  | .error s => .failDisk s
  | .ok current_disk_io =>
    match e.net with
    | .error s => .failNet s current_disk_io
    | .ok current_net_io =>
      match e.connections with
      | .error s => .failLate s current_disk_io current_net_io
      | .ok conns =>
        match e.partitions with
        | .error s => .failLate s current_disk_io current_net_io
        | .ok parts =>
          -- the source binds read_bytes_d/write_bytes_d and the four rates
          -- to locals before building the dict; they are inlined here
          .ok
            [("Disk Read Rate (MB/s)",
               .num (rate_mb ((current_disk_io.read_bytes : ℤ) - (last_disk_io.read_bytes : ℤ))
                 time_diff)),
             ("Disk Write Rate (MB/s)",
               .num (rate_mb ((current_disk_io.write_bytes : ℤ) - (last_disk_io.write_bytes : ℤ))
                 time_diff)),
             ("Net Sent (MB/s)",
               .num (rate_mb ((current_net_io.bytes_sent : ℤ) - (last_net_io.bytes_sent : ℤ))
                 time_diff)),
             ("Net Received (MB/s)",
               .num (rate_mb ((current_net_io.bytes_recv : ℤ) - (last_net_io.bytes_recv : ℤ))
                 time_diff)),
             ("Network Total Connections", .nat conns),
             ("Disk Total Partitions", .nat parts),
             ("Network Packet Errors", .nat (current_net_io.errin + current_net_io.errout)),
             ("Disk I/O Latency (Sim/ms)",
               .num (disk_latency e.sim_latency
                 (rate_mb ((current_disk_io.read_bytes : ℤ) - (last_disk_io.read_bytes : ℤ))
                   time_diff)
                 (rate_mb ((current_disk_io.write_bytes : ℤ) - (last_disk_io.write_bytes : ℤ))
                   time_diff)))]
            current_disk_io current_net_io

/-! ## Process stage (`_get_process_data`, monitor.py:106-132) -/
/-- One row of `psutil.process_iter(['pid', 'name', 'cpu_percent'])`. -/
structure ProcInfo where
  name : String
  cpu_percent : ℚ
deriving DecidableEq, Repr

/-- Process stage environment.  A `none` in `procs` is a process whose
`proc.info` access raised `NoSuchProcess`/`AccessDenied`/`ZombieProcess`
and was skipped by the inner `except: pass`.  The other fields are the
readings taken outside the inner try (`psutil.pids()`, uptime inputs,
`psutil.users()`, `psutil.Process().num_fds()`); if any of those raises the
whole stage raises, which the caller models as `Except.error`. -/
structure ProcEnv where
  pids : ℕ
  procs : List (Option ProcInfo)
  uptime_hours : ℚ
  users : ℕ
  num_fds : ℕ

/-- The `"Top CPU Process"` value computed by `_get_process_data`.
The source initialises `top_cpu_process = "N/A"` (monitor.py:109), sorts the
readable processes by CPU descending, and then assigns the formatted winner
to a different, misspelled local `top_cpu_proc` (monitor.py:122), which is
never read.  The returned attribute is therefore always the initial "N/A".
The dead binding is kept here (as the winner's name/percent pair; the
f-string formatting of the dead value is elided) to mirror the source. -/
def top_cpu_process (procs : List (Option ProcInfo)) : String :=
  let processes : List ProcInfo := procs.filterMap id
  let _top_cpu_proc : Option (String × ℚ) :=
    match processes with
    | [] => none
    | p :: rest =>
      -- head of `sorted(processes, key=cpu_percent, reverse=True)`:
      -- the earliest entry with maximal cpu_percent (Python sort is stable)
      let best := rest.foldl (fun b q => if q.cpu_percent > b.cpu_percent then q else b) p
      if best.cpu_percent > 0 then some (best.name, best.cpu_percent) else none
  "N/A"

def get_process_data (p : ProcEnv) : List (String × Value) :=
  [("Running Processes", .nat p.pids),
   ("Top CPU Process", .str (top_cpu_process p.procs)),
   ("System Uptime (h)", .num (round2 p.uptime_hours)),
   ("Login Users", .nat p.users),
   ("Open File Descriptors (Sim)", .nat p.num_fds)]

/-! ## Conceptual flux metrics (`_calculate_conceptual_flux_metrics`,
monitor.py:187-235) -/
/-- The three `random.randint` draws used by the flux metrics. -/
structure FluxRand where
  transistor : ℕ
  transit : ℕ
  pulses : ℕ

/-- Circuitry Integrity (monitor.py:215-216):
`round(max(0, min(100, 100 - (active_load*0.2 + temp*0.5 + total_io*0.1))), 2)`. -/
def circuitry_integrity (active_load temp_c total_io : ℚ) : ℚ :=
  round2 (max 0 (min 100
    (100 - (active_load * 0.2 + temp_c * 0.5 + total_io * 0.1))))

/-- Hexadecimal Energy Flow magnitude (monitor.py:222):
`int((active_load + total_io) * 1000000 + temp_c * 1000)`. -/
def hex_flow_magnitude (active_load total_io temp_c : ℚ) : ℤ :=
  truncInt ((active_load + total_io) * 1000000 + temp_c * 1000)

/-- Python's `m & 0xFFFFFFFFFF` on an arbitrary int: the unique
representative in `[0, 2^40)`, i.e. `m mod 2^40`. -/
def hex_flow_masked (active_load total_io temp_c : ℚ) : ℕ :=
  ((hex_flow_magnitude active_load total_io temp_c) % (2 ^ 40 : ℤ)).toNat

/-- Digit characters of Python's `hex(...)[2:].upper()`. -/
def hexDigitChar (n : ℕ) : Char :=
  if n < 10 then Char.ofNat (48 + n) else Char.ofNat (55 + n)

/-- Uppercase hex digit list of a natural number, most significant first
(as produced by `hex(n)[2:].upper()`; `0` renders as `"0"`). -/
def toHexUpperList (n : ℕ) : List Char :=
  if _h : n < 16 then [hexDigitChar n]
  else toHexUpperList (n / 16) ++ [hexDigitChar (n % 16)]
decreasing_by
  exact Nat.div_lt_self (by omega) (by omega)

/-- The Hexadecimal Energy Flow string (monitor.py:223):
`f"0x{hex(m & 0xFFFFFFFFFF)[2:].upper()}"`. -/
def hex_energy_flow (active_load total_io temp_c : ℚ) : String :=
  "0x" ++ String.mk (toHexUpperList (hex_flow_masked active_load total_io temp_c))

/-- The eight derived entries of `_calculate_conceptual_flux_metrics`, in
assignment order, as functions of the dict contents at entry to the
function.  Each numeric field is read through `float(data.get(k, 0.0))`.
The last entry's `data.get('Network Packet Errors', 0)` read happens in the
source after the first seven assignments, but those only add the seven flux
keys above it, so the read is equal to a read from the dict at entry.  The
source wraps each numeric result in an f-string with a unit suffix
(" J/s", "%", "/s", " B/s"); the numeric payload is stored here and only
the hex entry, whose exact text the claims inspect, is stored as its full
string. -/
def conceptual_flux_entries (r : FluxRand) (data : Snapshot) : List (String × Value) :=
  let cpu_u := getNum data "CPU Usage (%)"
  let mem_u := getNum data "Memory Usage (%)"
  let gpu_u := getNum data "GPU Usage (%)"
  let temp_c := getNum data "CPU Temp (°C)"
  let disk_r := getNum data "Disk Read Rate (MB/s)"
  let disk_w := getNum data "Disk Write Rate (MB/s)"
  let net_s := getNum data "Net Sent (MB/s)"
  let net_r := getNum data "Net Received (MB/s)"
  let cpu_freq := getNum data "CPU Freq (GHz)"
  let total_io := disk_r + disk_w + net_s + net_r
  let active_load := cpu_u + mem_u + gpu_u
  [("Energetic Flux (Sim)",
     .num (round2 (active_load / 3 + temp_c / 10))),
   ("Transistor State Change Rate (Sim)",
     .int (truncInt (cpu_u * 1000 + cpu_freq * 10000 + (r.transistor : ℚ)))),
   ("Circuitry Integrity (Sim)",
     .num (circuitry_integrity active_load temp_c total_io)),
   ("Binary Data Byte Transit (Sim)",
     .int (truncInt (total_io * 1024 * 1024 * 8 + (r.transit : ℚ)))),
   ("Hexadecimal Energy Flow (Sim)",
     .str (hex_energy_flow active_load total_io temp_c)),
   ("Software-Hardware I/O Saturation (Sim)",
     .num (round2 (min 100 (total_io * 5 + active_load * 0.5)))),
   ("Electrical Controlled Pulses (Sim)",
     .int (truncInt (cpu_freq * 10 ^ 9 + (r.pulses : ℚ)))),
   ("Unwanted Transit Purity Check (Sim)",
     .num (round2 (100 - (getNum data "Network Packet Errors" * 10 + (active_load / 100) * 5))))]

/-- The body of `_calculate_conceptual_flux_metrics`: assign the eight derived entries
into the dict, in order. -/
def calculate_conceptual_flux_metrics (r : FluxRand) (data : Snapshot) : Snapshot :=
  updateMany data (conceptual_flux_entries r data)

/-! ## The sampling call (`get_detailed_system_data`, monitor.py:237-271) -/
/-- The collector's mutable cross-call state (`self.last_disk_io`,
`self.last_net_io`, `self.last_call_time`). -/
structure RateState where
  last_disk_io : DiskCounters
  last_net_io : NetCounters
  last_call_time : ℚ
deriving DecidableEq, Repr

/-- Ambient inputs of one sampling call: the wall clock, the timestamp
string, and each sub-stage's readings; a stage whose `psutil` calls raise is
an `Except.error` carrying the exception message. -/
structure CallEnv where
  current_time : ℚ
  timestamp : String
  cpu : Except String CpuData
  mem : Except String MemData
  gpu : GpuEnv
  sensors : Except String SensorEnv
  io_env : IoEnv
  proc : Except String ProcEnv
  flux : FluxRand

/-- The body of the `try:` block of `get_detailed_system_data`
(monitor.py:246-267), with the collector state threaded explicitly.
`time_diff = current_time - self.last_call_time` is taken before the try
(monitor.py:242-243).  Sub-stages run in source order: static info and
timestamp, CPU, memory, GPU, sensors, I/O rates (which overwrites the
counter fields as it goes), then `self.last_call_time = current_time`
(monitor.py:259), then the process stage, then the flux metrics.  An
escaping exception leaves the state exactly as mutated so far.  The dict
construction (a pure value) is written in the innermost success branch; in
the source it is interleaved with the stage calls, with the same `update`
order and the same result. -/
def collect_data (h : HostEnv) (env : CallEnv) (st : RateState) :
    Except String Snapshot × RateState :=
  match env.cpu with
  | .error e => (.error e, st)
  | .ok cpu =>
  match env.mem with
  | .error e => (.error e, st)
  | .ok mem =>
  match env.sensors with
  | .error e => (.error e, st)
  | .ok sens =>
  match get_io_data env.io_env st.last_disk_io st.last_net_io
      (env.current_time - st.last_call_time) with
  | .failDisk e => (.error e, st)
  | .failNet e d => (.error e, { st with last_disk_io := d })
  | .failLate e d n => (.error e, { st with last_disk_io := d, last_net_io := n })
  | .ok ioEntries d n =>
    match env.proc with
    | .error e =>
        (.error e,
         { last_disk_io := d, last_net_io := n, last_call_time := env.current_time })
    | .ok p =>
        (.ok (calculate_conceptual_flux_metrics env.flux
          (updateMany
            (updateMany
              (updateMany
                (updateMany
                  (updateMany
                    (updateMany
                      (setK (updateMany [] (static_system_info h))
                        "Timestamp" (.str env.timestamp))
                      (get_cpu_data cpu))
                    (get_memory_data mem))
                  (get_gpu_data env.gpu))
                (get_sensor_data sens))
              ioEntries)
            (get_process_data p))),
         { last_disk_io := d, last_net_io := n, last_call_time := env.current_time })

/-- The full `get_detailed_system_data` with its `try/except` (monitor.py:269-271):
an escaping exception is converted to the single-entry dict
`{"Error": f"Failed to collect data: {e}"}`. -/
def get_detailed_system_data (h : HostEnv) (env : CallEnv) (st : RateState) :
    Snapshot × RateState :=
  match collect_data h env st with
  | (.ok s, st1) => (s, st1)
  | (.error e, st1) => ([("Error", .str ("Failed to collect data: " ++ e))], st1)

/-! ## Helper predicates and key-set infrastructure -/
/-- Did this stage raise? -/
def isFail {α : Type} : Except String α → Bool
  | .error _ => true
  | .ok _ => false

/-- Did this result succeed? -/
def isOkE {α : Type} : Except String α → Bool
  | .ok _ => true
  | .error _ => false

/-- The message of the first sub-stage exception of a call, in the order the
sub-stages run inside `get_detailed_system_data`, or `none` if every
sub-stage succeeds. -/
def firstFailure (env : CallEnv) : Option String :=
  match env.cpu with
  | .error e => some e
  | .ok _ =>
  match env.mem with
  | .error e => some e
  | .ok _ =>
  match env.sensors with
  | .error e => some e
  | .ok _ =>
  match env.io_env.disk with
  | .error e => some e
  | .ok _ =>
  match env.io_env.net with
  | .error e => some e
  | .ok _ =>
  match env.io_env.connections with
  | .error e => some e
  | .ok _ =>
  match env.io_env.partitions with
  | .error e => some e
  | .ok _ =>
  match env.proc with
  | .error e => some e
  | .ok _ => none

/-- The 48 attribute keys of every successful snapshot, in insertion
order. -/
def snapshotKeys : List String :=
  ["Operating System", "System Architecture", "CPU Model (Sim)", "Python Version",
   "Total RAM (GB)", "Boot Time", "Timestamp",
   "CPU Usage (%)", "CPU Freq (GHz)", "Logical Cores", "Physical Cores",
   "CPU User Time (%)", "CPU System Time (%)", "CPU Idle Time (%)", "CPU Iowait Time (%)",
   "Memory Usage (%)", "Used Memory (GB)", "Available Memory (GB)", "Cached Memory (GB)",
   "Swap Usage (%)", "Used Swap (GB)", "Shared Memory (GB)",
   "GPU Usage (%)", "GPU Memory (GB)", "GPU Temp (°C)",
   "CPU Temp (°C)", "Fan Speed (%)",
   "Disk Read Rate (MB/s)", "Disk Write Rate (MB/s)", "Net Sent (MB/s)", "Net Received (MB/s)",
   "Network Total Connections", "Disk Total Partitions", "Network Packet Errors",
   "Disk I/O Latency (Sim/ms)",
   "Running Processes", "Top CPU Process", "System Uptime (h)", "Login Users",
   "Open File Descriptors (Sim)",
   "Energetic Flux (Sim)", "Transistor State Change Rate (Sim)", "Circuitry Integrity (Sim)",
   "Binary Data Byte Transit (Sim)", "Hexadecimal Energy Flow (Sim)",
   "Software-Hardware I/O Saturation (Sim)", "Electrical Controlled Pulses (Sim)",
   "Unwanted Transit Purity Check (Sim)"]

/-- The extractor for the entries of a successful `_get_io_data` call. -/
def ioEntries : IoOutcome → List (String × Value)
  | .ok es _ _ => es
  | _ => []

/-! ## Flux-metric access -/
/-- The sum `active_load = cpu_u + mem_u + gpu_u` as read by the flux stage. -/
def active_load_of (data : Snapshot) : ℚ :=
  getNum data "CPU Usage (%)" + getNum data "Memory Usage (%)" +
    getNum data "GPU Usage (%)"

/-- The sum `total_io = disk_r + disk_w + net_s + net_r` as read by the flux
stage. -/
def total_io_of (data : Snapshot) : ℚ :=
  getNum data "Disk Read Rate (MB/s)" + getNum data "Disk Write Rate (MB/s)" +
    getNum data "Net Sent (MB/s)" + getNum data "Net Received (MB/s)"

/-! ## Hexadecimal format facts -/
/-- One character of the regex class `[0-9A-F]`. -/
def isHexUpperDigit (c : Char) : Bool :=
  (decide ('0' ≤ c) && decide (c ≤ '9')) || (decide ('A' ≤ c) && decide (c ≤ 'F'))

/-- The regex `^0x[0-9A-F]+$` as a boolean check. -/
def matchesHexPattern (s : String) : Bool :=
  match s.data with
  | '0' :: 'x' :: rest => !rest.isEmpty && rest.all isHexUpperDigit
  | _ => false

/-! ## Concrete example inputs (used by witnesses and counterexamples) -/
def hostEx0 : HostEnv := ⟨"Linux-6.8", "x86_64", "", "3.12.1", 8589934592, "2026-01-01 00:00:00"⟩

def cpuEx0 : CpuData := ⟨12, some 2400, 8, 4, 10, 2, 88, none⟩

def memEx0 : MemData := ⟨50, 4294967296, 4294967296, none, 0, 0, none⟩

def gpuEx0 : GpuEnv := ⟨none, 1, 35⟩

def sensEx0 : SensorEnv := ⟨[], [], 40, 40⟩

def ioEx0 : IoEnv := ⟨.ok ⟨2000, 3000⟩, .ok ⟨10, 20, 0, 0⟩, .ok 5, .ok 3, 10⟩

def procEx0 : ProcEnv := ⟨100, [some ⟨"chrome", 50⟩], 1, 1, 16⟩

def fluxEx0 : FluxRand := ⟨100, 1000, 10000⟩

def stEx0 : RateState := ⟨⟨0, 0⟩, ⟨0, 0, 0, 0⟩, 0⟩

/-- A fully successful call environment (no GPU device). -/
def envAllOk : CallEnv :=
  ⟨5, "t1", .ok cpuEx0, .ok memEx0, gpuEx0, .ok sensEx0, ioEx0, .ok procEx0, fluxEx0⟩

/-- A fully successful call environment with a real GPU device reporting
nonzero load. -/
def envAllOk2 : CallEnv :=
  ⟨9, "t2", .ok cpuEx0, .ok memEx0, ⟨some [⟨1/2, 2048, 66⟩], 1, 35⟩, .ok sensEx0,
   ioEx0, .ok procEx0, fluxEx0⟩

/-- A call whose CPU stage raises. -/
def envCpuFail : CallEnv :=
  ⟨5, "t1", .error "boom", .ok memEx0, gpuEx0, .ok sensEx0, ioEx0, .ok procEx0, fluxEx0⟩

/-- A call whose process stage raises, after the I/O stage succeeded. -/
def envProcFail : CallEnv :=
  ⟨5, "t1", .ok cpuEx0, .ok memEx0, gpuEx0, .ok sensEx0, ioEx0, .error "proc gone", fluxEx0⟩

theorem any_key_eq_true (d : Snapshot) (k : String) :
    (d.any (fun p => p.1 = k)) = true ↔ k ∈ keysOf d := by
  rw [List.any_eq_true]
  constructor
  · rintro ⟨p, hp, hpe⟩
    have hp1 : p.1 = k := by simpa using hpe
    exact hp1 ▸ List.mem_map_of_mem _ hp
  · intro hmem
    rcases List.mem_map.mp hmem with ⟨p, hp, rfl⟩
    exact ⟨p, hp, by simp⟩

theorem keysOf_setK_fresh (d : Snapshot) (k : String) (v : Value) (hk : ¬ k ∈ keysOf d) :
    keysOf (setK d k v) = keysOf d ++ [k] := by
  unfold setK
  rw [if_neg (fun hany => hk ((any_key_eq_true d k).mp hany))]
  simp [keysOf]

theorem keysOf_updateMany_fresh (es : List (String × Value)) (d : Snapshot)
    (hnd : (keysOf d ++ keysOf es).Nodup) :
    keysOf (updateMany d es) = keysOf d ++ keysOf es := by
  induction es generalizing d with
  | nil => simp [updateMany, keysOf]
  | cons e es ih =>
    have hk : ¬ e.1 ∈ keysOf d := by
      intro hmem
      have hdisj := (List.nodup_append.mp hnd).2.2
      exact hdisj hmem (by simp [keysOf])
    have step : updateMany d (e :: es) = updateMany (setK d e.1 e.2) es := rfl
    rw [step, ih (setK d e.1 e.2) ?_, keysOf_setK_fresh d e.1 e.2 hk]
    · simp [keysOf]
    · rw [keysOf_setK_fresh d e.1 e.2 hk]
      have hra : keysOf d ++ keysOf (e :: es) = (keysOf d ++ [e.1]) ++ keysOf es := by
        simp [keysOf]
      rw [hra] at hnd
      exact hnd

/-- Packaged form of `keysOf_updateMany_fresh` taking the key lists and the
result as explicit arguments, so concrete chains can discharge the side
conditions by `decide`. -/
theorem keysOf_updateMany_eq (d : Snapshot) (es : List (String × Value))
    (ks1 ks2 ks : List String) (h1 : keysOf d = ks1) (h2 : keysOf es = ks2)
    (hnd : (ks1 ++ ks2).Nodup) (hks : ks1 ++ ks2 = ks) :
    keysOf (updateMany d es) = ks := by
  subst h1; subst h2; subst hks
  exact keysOf_updateMany_fresh es d hnd

/-- Packaged form of `keysOf_setK_fresh`. -/
theorem keysOf_setK_eq (d : Snapshot) (k : String) (v : Value)
    (ks ks2 : List String) (h1 : keysOf d = ks) (hk : ¬ k ∈ ks) (hks : ks ++ [k] = ks2) :
    keysOf (setK d k v) = ks2 := by
  subst h1; subst hks
  exact keysOf_setK_fresh d k v hk

theorem keysOf_static (h : HostEnv) : keysOf (static_system_info h) =
    ["Operating System", "System Architecture", "CPU Model (Sim)", "Python Version",
     "Total RAM (GB)", "Boot Time"] := rfl

theorem keysOf_cpu (c : CpuData) : keysOf (get_cpu_data c) =
    ["CPU Usage (%)", "CPU Freq (GHz)", "Logical Cores", "Physical Cores",
     "CPU User Time (%)", "CPU System Time (%)", "CPU Idle Time (%)",
     "CPU Iowait Time (%)"] := rfl

theorem keysOf_mem (m : MemData) : keysOf (get_memory_data m) =
    ["Memory Usage (%)", "Used Memory (GB)", "Available Memory (GB)", "Cached Memory (GB)",
     "Swap Usage (%)", "Used Swap (GB)", "Shared Memory (GB)"] := rfl

theorem keysOf_gpu (e : GpuEnv) : keysOf (get_gpu_data e) =
    ["GPU Usage (%)", "GPU Memory (GB)", "GPU Temp (°C)"] := by
  unfold get_gpu_data
  split <;> rfl

theorem keysOf_sensor (e : SensorEnv) : keysOf (get_sensor_data e) =
    ["CPU Temp (°C)", "Fan Speed (%)"] := rfl

theorem keysOf_proc (p : ProcEnv) : keysOf (get_process_data p) =
    ["Running Processes", "Top CPU Process", "System Uptime (h)", "Login Users",
     "Open File Descriptors (Sim)"] := rfl

theorem keysOf_flux_entries (r : FluxRand) (data : Snapshot) :
    keysOf (conceptual_flux_entries r data) =
    ["Energetic Flux (Sim)", "Transistor State Change Rate (Sim)",
     "Circuitry Integrity (Sim)", "Binary Data Byte Transit (Sim)",
     "Hexadecimal Energy Flow (Sim)", "Software-Hardware I/O Saturation (Sim)",
     "Electrical Controlled Pulses (Sim)", "Unwanted Transit Purity Check (Sim)"] := rfl

/-! ## Lookup lemmas for `setK` -/
theorem lookupK_cons (k : String) (p : String × Value) (d : Snapshot) :
    lookupK k (p :: d) = if p.1 = k then some p.2 else lookupK k d := rfl

theorem mem_keysOf_cons (k : String) (p : String × Value) (d : Snapshot) :
    k ∈ keysOf (p :: d) ↔ k = p.1 ∨ k ∈ keysOf d := by
  show k ∈ p.1 :: keysOf d ↔ _
  exact List.mem_cons

theorem lookup_map_replace (d : Snapshot) (k : String) (v : Value)
    (hmem : k ∈ keysOf d) :
    lookupK k (d.map (fun p => if p.1 = k then (k, v) else p)) = some v := by
  induction d with
  | nil => simp [keysOf] at hmem
  | cons p d ih =>
    rw [List.map_cons]
    by_cases hp : p.1 = k
    · rw [if_pos hp, lookupK_cons, if_pos rfl]
    · have hmem2 : k ∈ keysOf d := by
        rcases (mem_keysOf_cons k p d).mp hmem with h1 | h2
        · exact absurd h1.symm hp
        · exact h2
      rw [if_neg hp, lookupK_cons, if_neg hp]
      exact ih hmem2

theorem lookup_append_fresh (d : Snapshot) (k : String) (v : Value)
    (hnm : ¬ k ∈ keysOf d) : lookupK k (d ++ [(k, v)]) = some v := by
  induction d with
  | nil => rw [List.nil_append, lookupK_cons, if_pos rfl]
  | cons p d ih =>
    have hp : ¬ (p.1 = k) :=
      fun he => hnm ((mem_keysOf_cons k p d).mpr (Or.inl he.symm))
    have hnm2 : ¬ k ∈ keysOf d :=
      fun hm => hnm ((mem_keysOf_cons k p d).mpr (Or.inr hm))
    rw [List.cons_append, lookupK_cons, if_neg hp]
    exact ih hnm2

theorem lookup_setK_self (d : Snapshot) (k : String) (v : Value) :
    lookupK k (setK d k v) = some v := by
  unfold setK
  by_cases hany : (d.any (fun p => p.1 = k)) = true
  · rw [if_pos hany]
    exact lookup_map_replace d k v ((any_key_eq_true d k).mp hany)
  · rw [if_neg hany]
    exact lookup_append_fresh d k v (fun hm => hany ((any_key_eq_true d k).mpr hm))

theorem lookup_map_replace_other (d : Snapshot) (k k2 : String) (v : Value) (hne : k ≠ k2) :
    lookupK k (d.map (fun p => if p.1 = k2 then (k2, v) else p)) = lookupK k d := by
  induction d with
  | nil => rfl
  | cons p d ih =>
    rw [List.map_cons, lookupK_cons]
    by_cases hp : p.1 = k2
    · rw [if_pos hp, lookupK_cons]
      have h1 : ¬ ((k2, v).1 = k) := fun h => hne h.symm
      have h2 : ¬ (p.1 = k) := fun h => hne (h.symm.trans hp)
      rw [if_neg h1, if_neg h2]
      exact ih
    · rw [if_neg hp, lookupK_cons]
      by_cases hpk : p.1 = k
      · rw [if_pos hpk, if_pos hpk]
      · rw [if_neg hpk, if_neg hpk]
        exact ih

theorem lookup_append_other (d : Snapshot) (k k2 : String) (v : Value) (hne : k ≠ k2) :
    lookupK k (d ++ [(k2, v)]) = lookupK k d := by
  induction d with
  | nil =>
    rw [List.nil_append, lookupK_cons, if_neg (fun h : k2 = k => hne h.symm)]
  | cons p d ih =>
    rw [List.cons_append, lookupK_cons, lookupK_cons]
    by_cases hpk : p.1 = k
    · rw [if_pos hpk, if_pos hpk]
    · rw [if_neg hpk, if_neg hpk]
      exact ih

theorem lookup_setK_other (d : Snapshot) (k k2 : String) (v : Value) (hne : k ≠ k2) :
    lookupK k (setK d k2 v) = lookupK k d := by
  unfold setK
  by_cases hany : (d.any (fun p => p.1 = k2)) = true
  · rw [if_pos hany]
    exact lookup_map_replace_other d k k2 v hne
  · rw [if_neg hany]
    exact lookup_append_other d k k2 v hne

/-! ## Rounding arithmetic -/
theorem round2_mono {a b : ℚ} (hab : a ≤ b) : round2 a ≤ round2 b := by
  unfold round2
  have h : (⌊a * 100 + 1/2⌋ : ℤ) ≤ ⌊b * 100 + 1/2⌋ := Int.floor_mono (by linarith)
  have h2 : ((⌊a * 100 + 1/2⌋ : ℤ) : ℚ) ≤ ((⌊b * 100 + 1/2⌋ : ℤ) : ℚ) := by
    exact_mod_cast h
  linarith

theorem round1_mono {a b : ℚ} (hab : a ≤ b) : round1 a ≤ round1 b := by
  unfold round1
  have h : (⌊a * 10 + 1/2⌋ : ℤ) ≤ ⌊b * 10 + 1/2⌋ := Int.floor_mono (by linarith)
  have h2 : ((⌊a * 10 + 1/2⌋ : ℤ) : ℚ) ≤ ((⌊b * 10 + 1/2⌋ : ℤ) : ℚ) := by
    exact_mod_cast h
  linarith

/-- A 2-decimal rounding moves a value by at most 1/200, hence by at most
0.01. -/
theorem round2_abs_sub (q : ℚ) : |round2 q - q| ≤ 1/100 := by
  unfold round2
  have h1 : q * 100 + 1/2 - 1 < (⌊q * 100 + 1/2⌋ : ℚ) := Int.sub_one_lt_floor _
  have h2 : ((⌊q * 100 + 1/2⌋ : ℤ) : ℚ) ≤ q * 100 + 1/2 := Int.floor_le _
  rw [abs_le]
  constructor <;> linarith

/-- C5: for every elapsed time `t ≤ 0`, all four disk/network rate
attributes of the I/O stage equal 0.0, for any counter values; the rate
helper itself returns 0 for any byte delta, so no division by zero and no
negative rate occurs. -/
theorem C5_nonpositive_elapsed (e : IoEnv) (ld cur : DiskCounters)
    (ln curn : NetCounters) (conns parts : ℕ) (t : ℚ)
    (ht : t ≤ 0) (hd : e.disk = .ok cur) (hn : e.net = .ok curn)
    (hc : e.connections = .ok conns) (hp : e.partitions = .ok parts) :
    lookupK "Disk Read Rate (MB/s)" (ioEntries (get_io_data e ld ln t)) = some (.num 0) ∧
    lookupK "Disk Write Rate (MB/s)" (ioEntries (get_io_data e ld ln t)) = some (.num 0) ∧
    lookupK "Net Sent (MB/s)" (ioEntries (get_io_data e ld ln t)) = some (.num 0) ∧
    lookupK "Net Received (MB/s)" (ioEntries (get_io_data e ld ln t)) = some (.num 0) ∧
    (∀ bytes_diff : ℤ, rate_mb bytes_diff t = 0) := by
  have hr : ∀ bytes_diff : ℤ, rate_mb bytes_diff t = 0 := by
    intro bytes_diff
    unfold rate_mb
    rw [if_neg (not_lt.mpr ht)]
  obtain ⟨ed, en, ec, ep, lat⟩ := e
  simp only at hd hn hc hp
  subst hd; subst hn; subst hc; subst hp
  refine ⟨?_, ?_, ?_, ?_, hr⟩ <;> simp [get_io_data, ioEntries, lookupK, hr]

/-- C5 witness: a concrete all-successful I/O stage with `t = 0`. -/
theorem C5_nonpositive_elapsed_witness :
    lookupK "Disk Read Rate (MB/s)"
      (ioEntries (get_io_data ⟨.ok ⟨7, 9⟩, .ok ⟨3, 4, 0, 0⟩, .ok 1, .ok 2, 10⟩
        ⟨1, 2⟩ ⟨1, 2, 0, 0⟩ 0)) = some (.num 0) ∧
    lookupK "Disk Write Rate (MB/s)"
      (ioEntries (get_io_data ⟨.ok ⟨7, 9⟩, .ok ⟨3, 4, 0, 0⟩, .ok 1, .ok 2, 10⟩
        ⟨1, 2⟩ ⟨1, 2, 0, 0⟩ 0)) = some (.num 0) ∧
    lookupK "Net Sent (MB/s)"
      (ioEntries (get_io_data ⟨.ok ⟨7, 9⟩, .ok ⟨3, 4, 0, 0⟩, .ok 1, .ok 2, 10⟩
        ⟨1, 2⟩ ⟨1, 2, 0, 0⟩ 0)) = some (.num 0) ∧
    lookupK "Net Received (MB/s)"
      (ioEntries (get_io_data ⟨.ok ⟨7, 9⟩, .ok ⟨3, 4, 0, 0⟩, .ok 1, .ok 2, 10⟩
        ⟨1, 2⟩ ⟨1, 2, 0, 0⟩ 0)) = some (.num 0) ∧
    (∀ bytes_diff : ℤ, rate_mb bytes_diff 0 = 0) :=
  C5_nonpositive_elapsed ⟨.ok ⟨7, 9⟩, .ok ⟨3, 4, 0, 0⟩, .ok 1, .ok 2, 10⟩
    ⟨1, 2⟩ ⟨7, 9⟩ ⟨1, 2, 0, 0⟩ ⟨3, 4, 0, 0⟩ 1 2 0 le_rfl rfl rfl rfl rfl

/-- C4 counterexample: at the spec scenario (previous read counter
1_000_000, current 3_048_000, one second elapsed) the computed disk read
rate is 1.95 MB/s, not 2.00 MB/s: the 2_048_000-byte delta is divided by
2^20 = 1_048_576, giving 1.953125, which rounds to 1.95, more than 0.01
away from 2.00. -/
theorem C4_scenario_counterexample :
    rate_mb ((3048000 : ℤ) - 1000000) 1 = 39/20 ∧
    rate_mb ((3048000 : ℤ) - 1000000) 1 ≠ 2 ∧
    ¬ |(2 : ℚ) - rate_mb ((3048000 : ℤ) - 1000000) 1| ≤ 1/100 := by
  have h : rate_mb ((3048000 : ℤ) - 1000000) 1 = 39/20 := by
    unfold rate_mb round2
    rw [if_pos (by norm_num : (0 : ℚ) < 1)]
    norm_num
  refine ⟨h, by rw [h]; norm_num, by rw [h, abs_le]; norm_num⟩

/-- C4 (amended): for every byte delta and every `t > 0` the rate is the
exact quotient `delta / t / 2^20`, rounded to two decimals, hence within
0.01 of the exact quotient; for the spec scenario the read rate is 1.95
MB/s (not 2.00) and the write rate 0.00 MB/s. -/
theorem C4_rate_formula (bytes_diff : ℤ) (t : ℚ) (ht : 0 < t) :
    rate_mb bytes_diff t = round2 ((bytes_diff : ℚ) / t / 2 ^ 20) ∧
    |rate_mb bytes_diff t - (bytes_diff : ℚ) / t / 2 ^ 20| ≤ 1/100 ∧
    rate_mb ((3048000 : ℤ) - 1000000) 1 = 39/20 ∧
    rate_mb ((500000 : ℤ) - 500000) 1 = 0 := by
  have heq : rate_mb bytes_diff t = round2 ((bytes_diff : ℚ) / t / 2 ^ 20) := by
    unfold rate_mb
    rw [if_pos ht]
    norm_num
  refine ⟨heq, ?_, (C4_scenario_counterexample).1, ?_⟩
  · rw [heq]
    exact round2_abs_sub _
  · unfold rate_mb round2
    rw [if_pos (by norm_num : (0 : ℚ) < 1)]
    norm_num

/-- C4 witness: the formula evaluated at the scenario input. -/
theorem C4_rate_formula_witness :
    (0 : ℚ) < 1 ∧
    rate_mb 2048000 1 = round2 ((2048000 : ℤ) / 1 / 2 ^ 20) :=
  ⟨by norm_num, (C4_rate_formula 2048000 1 (by norm_num)).1⟩

/-- C9 counterexample: after a disk counter reset (previous read counter
2_097_152, current 0, one second elapsed, uniform draw 10) the read rate is
-2.0 and the write rate 0.0 — so the two rates are not both 0.0 — yet the
latency attribute is 0.0, not the in-[2,20] rounded draw the claim
requires. -/
theorem C9_latency_counterexample :
    lookupK "Disk Read Rate (MB/s)"
      (ioEntries (get_io_data ⟨.ok ⟨0, 0⟩, .ok ⟨0, 0, 0, 0⟩, .ok 0, .ok 0, 10⟩
        ⟨2097152, 0⟩ ⟨0, 0, 0, 0⟩ 1)) = some (.num (-2)) ∧
    lookupK "Disk Write Rate (MB/s)"
      (ioEntries (get_io_data ⟨.ok ⟨0, 0⟩, .ok ⟨0, 0, 0, 0⟩, .ok 0, .ok 0, 10⟩
        ⟨2097152, 0⟩ ⟨0, 0, 0, 0⟩ 1)) = some (.num 0) ∧
    ¬ ((-2 : ℚ) = 0 ∧ (0 : ℚ) = 0) ∧
    lookupK "Disk I/O Latency (Sim/ms)"
      (ioEntries (get_io_data ⟨.ok ⟨0, 0⟩, .ok ⟨0, 0, 0, 0⟩, .ok 0, .ok 0, 10⟩
        ⟨2097152, 0⟩ ⟨0, 0, 0, 0⟩ 1)) = some (.num 0) ∧
    (2 : ℚ) ≤ 10 ∧ (10 : ℚ) ≤ 20 ∧ ¬ ((2 : ℚ) ≤ 0) := by
  have hread : rate_mb (-2097152 : ℤ) 1 = -2 := by
    unfold rate_mb round2
    rw [if_pos (by norm_num : (0 : ℚ) < 1)]
    norm_num
  have hwrite : rate_mb (0 : ℤ) 1 = 0 := by
    unfold rate_mb round2
    rw [if_pos (by norm_num : (0 : ℚ) < 1)]
    norm_num
  have hlat : disk_latency 10 (-2) 0 = 0 := by
    unfold disk_latency round2
    rw [if_neg (by norm_num : ¬ ((-2 : ℚ) + 0 > 0))]
    norm_num
  refine ⟨?_, ?_, by norm_num, ?_, by norm_num, by norm_num, by norm_num⟩ <;>
    simp [get_io_data, ioEntries, lookupK, hread, hwrite, hlat]

/-- C9 (amended): the simulated latency is 0.0 whenever the sum of the two
disk rates is ≤ 0 — in particular whenever both rates are 0.0 — and equals
the uniform draw rounded to two decimals whenever the sum is positive, in
which case a draw in [2, 20] yields a rounded value in [2, 20]. -/
theorem C9_latency_amended (u read_rate write_rate : ℚ) :
    (read_rate + write_rate ≤ 0 → disk_latency u read_rate write_rate = 0) ∧
    (0 < read_rate + write_rate → disk_latency u read_rate write_rate = round2 u) ∧
    (2 ≤ u → u ≤ 20 → 2 ≤ round2 u ∧ round2 u ≤ 20) := by
  refine ⟨?_, ?_, ?_⟩
  · intro hle
    unfold disk_latency
    rw [if_neg (not_lt.mpr hle), mul_zero]
    unfold round2
    norm_num
  · intro hlt
    unfold disk_latency
    rw [if_pos hlt, mul_one]
  · intro h2 h20
    have hlo : round2 2 ≤ round2 u := round2_mono h2
    have hhi : round2 u ≤ round2 20 := round2_mono h20
    have e2 : round2 2 = 2 := by unfold round2; norm_num
    have e20 : round2 20 = 20 := by unfold round2; norm_num
    rw [e2] at hlo
    rw [e20] at hhi
    exact ⟨hlo, hhi⟩

/-- C9 witness: a positive rate sum with draw 10 gives latency
`round2 10`, inside [2, 20]. -/
theorem C9_latency_amended_witness :
    disk_latency 10 1 0 = round2 10 ∧ 2 ≤ round2 10 ∧ round2 10 ≤ 20 :=
  ⟨(C9_latency_amended 10 1 0).2.1 (by norm_num),
   (C9_latency_amended 10 1 0).2.2 (by norm_num) (by norm_num)⟩

/-- C8: whenever the GPU interface is unavailable or reports zero usage
(the `gpu_data["GPU Usage (%)"] == 0.0` test), the GPU Usage attribute is
the `uniform(0.1, 5.0)` draw rounded to 2 decimals and the GPU Temp
attribute the `uniform(30, 45)` draw rounded to 1 decimal — both keys
present, with values inside the respective intervals. -/
theorem C8_gpu_simulated (e : GpuEnv) (hzero : (gpu_real_values e).1 = 0)
    (hu1 : 1/10 ≤ e.sim_usage) (hu2 : e.sim_usage ≤ 5)
    (ht1 : 30 ≤ e.sim_temp) (ht2 : e.sim_temp ≤ 45) :
    lookupK "GPU Usage (%)" (get_gpu_data e) = some (.num (round2 e.sim_usage)) ∧
    lookupK "GPU Temp (°C)" (get_gpu_data e) = some (.num (round1 e.sim_temp)) ∧
    1/10 ≤ round2 e.sim_usage ∧ round2 e.sim_usage ≤ 5 ∧
    30 ≤ round1 e.sim_temp ∧ round1 e.sim_temp ≤ 45 := by
  have e01 : round2 (1/10) = 1/10 := by unfold round2; norm_num
  have e5 : round2 (5 : ℚ) = 5 := by unfold round2; norm_num
  have e30 : round1 (30 : ℚ) = 30 := by unfold round1; norm_num
  have e45 : round1 (45 : ℚ) = 45 := by unfold round1; norm_num
  unfold get_gpu_data
  rw [if_pos hzero]
  refine ⟨by simp [lookupK], by simp [lookupK], ?_, ?_, ?_, ?_⟩
  · rw [← e01]; exact round2_mono hu1
  · rw [← e5]; exact round2_mono hu2
  · rw [← e30]; exact round1_mono ht1
  · rw [← e45]; exact round1_mono ht2

/-- C8 witness: GPUtil absent, draws 1 and 35. -/
theorem C8_gpu_simulated_witness :
    lookupK "GPU Usage (%)" (get_gpu_data ⟨none, 1, 35⟩) = some (.num (round2 1)) ∧
    lookupK "GPU Temp (°C)" (get_gpu_data ⟨none, 1, 35⟩) = some (.num (round1 35)) ∧
    1/10 ≤ round2 (1 : ℚ) ∧ round2 (1 : ℚ) ≤ 5 ∧
    30 ≤ round1 (35 : ℚ) ∧ round1 (35 : ℚ) ≤ 45 :=
  C8_gpu_simulated ⟨none, 1, 35⟩ rfl (by norm_num) (by norm_num) (by norm_num)
    (by norm_num)

/-- The flux stage as the explicit chain of eight dict assignments. -/
theorem flux_as_chain (r : FluxRand) (data : Snapshot) :
    calculate_conceptual_flux_metrics r data =
      setK (setK (setK (setK (setK (setK (setK (setK data
        "Energetic Flux (Sim)"
          (.num (round2 (active_load_of data / 3 + getNum data "CPU Temp (°C)" / 10))))
        "Transistor State Change Rate (Sim)"
          (.int (truncInt (getNum data "CPU Usage (%)" * 1000 +
            getNum data "CPU Freq (GHz)" * 10000 + (r.transistor : ℚ)))))
        "Circuitry Integrity (Sim)"
          (.num (circuitry_integrity (active_load_of data)
            (getNum data "CPU Temp (°C)") (total_io_of data))))
        "Binary Data Byte Transit (Sim)"
          (.int (truncInt (total_io_of data * 1024 * 1024 * 8 + (r.transit : ℚ)))))
        "Hexadecimal Energy Flow (Sim)"
          (.str (hex_energy_flow (active_load_of data) (total_io_of data)
            (getNum data "CPU Temp (°C)"))))
        "Software-Hardware I/O Saturation (Sim)"
          (.num (round2 (min 100 (total_io_of data * 5 + active_load_of data * 0.5)))))
        "Electrical Controlled Pulses (Sim)"
          (.int (truncInt (getNum data "CPU Freq (GHz)" * 10 ^ 9 + (r.pulses : ℚ)))))
        "Unwanted Transit Purity Check (Sim)"
          (.num (round2 (100 - (getNum data "Network Packet Errors" * 10 +
            (active_load_of data / 100) * 5)))) := rfl

theorem flux_integrity_lookup (r : FluxRand) (data : Snapshot) :
    lookupK "Circuitry Integrity (Sim)" (calculate_conceptual_flux_metrics r data) =
      some (.num (circuitry_integrity (active_load_of data)
        (getNum data "CPU Temp (°C)") (total_io_of data))) := by
  rw [flux_as_chain]
  rw [lookup_setK_other _ _ _ _ (by decide), lookup_setK_other _ _ _ _ (by decide),
      lookup_setK_other _ _ _ _ (by decide), lookup_setK_other _ _ _ _ (by decide),
      lookup_setK_other _ _ _ _ (by decide)]
  exact lookup_setK_self _ _ _

theorem flux_hex_lookup (r : FluxRand) (data : Snapshot) :
    lookupK "Hexadecimal Energy Flow (Sim)" (calculate_conceptual_flux_metrics r data) =
      some (.str (hex_energy_flow (active_load_of data) (total_io_of data)
        (getNum data "CPU Temp (°C)"))) := by
  rw [flux_as_chain]
  rw [lookup_setK_other _ _ _ _ (by decide), lookup_setK_other _ _ _ _ (by decide),
      lookup_setK_other _ _ _ _ (by decide)]
  exact lookup_setK_self _ _ _

/-- C6: the Circuitry Integrity attribute is
`round2 (clamp (100 - (active_load*0.2 + temp*0.5 + total_io*0.1)) 0 100)`,
always lies in [0, 100] (also for pathological inputs such as
active_load = 300, temp = 200), and equals 14.00 for the spec scenario
cpu=90, mem=85, gpu=10, temp=88, total_io=50. -/
theorem C6_circuitry_integrity_clamped :
    (∀ (r : FluxRand) (data : Snapshot),
      lookupK "Circuitry Integrity (Sim)" (calculate_conceptual_flux_metrics r data) =
        some (.num (circuitry_integrity (active_load_of data)
          (getNum data "CPU Temp (°C)") (total_io_of data)))) ∧
    (∀ active_load temp_c total_io : ℚ,
      circuitry_integrity active_load temp_c total_io =
        round2 (max 0 (min 100
          (100 - (active_load * 0.2 + temp_c * 0.5 + total_io * 0.1)))) ∧
      0 ≤ circuitry_integrity active_load temp_c total_io ∧
      circuitry_integrity active_load temp_c total_io ≤ 100) ∧
    circuitry_integrity (90 + 85 + 10) 88 50 = 14 ∧
    circuitry_integrity 300 200 0 = 0 := by
  have e0 : round2 0 = 0 := by unfold round2; norm_num
  have e100 : round2 (100 : ℚ) = 100 := by unfold round2; norm_num
  refine ⟨flux_integrity_lookup, ?_, ?_, ?_⟩
  · intro active_load temp_c total_io
    refine ⟨rfl, ?_, ?_⟩
    · have h0 : round2 0 ≤ circuitry_integrity active_load temp_c total_io :=
        round2_mono (le_max_left _ _)
      rw [e0] at h0
      exact h0
    · have h100 : circuitry_integrity active_load temp_c total_io ≤ round2 100 :=
        round2_mono (max_le (by norm_num) (min_le_left _ _))
      rw [e100] at h100
      exact h100
  · have hv : max (0 : ℚ) (min 100
        (100 - ((90 + 85 + 10) * 0.2 + 88 * 0.5 + 50 * 0.1))) = 14 := by
      rw [show (100 : ℚ) - ((90 + 85 + 10) * 0.2 + 88 * 0.5 + 50 * 0.1) = 14 by norm_num]
      rw [min_eq_right (by norm_num : (14 : ℚ) ≤ 100), max_eq_right (by norm_num : (0 : ℚ) ≤ 14)]
    unfold circuitry_integrity
    rw [hv]
    unfold round2
    norm_num
  · have hv : max (0 : ℚ) (min 100 (100 - (300 * 0.2 + 200 * 0.5 + 0 * 0.1))) = 0 := by
      rw [show (100 : ℚ) - (300 * 0.2 + 200 * 0.5 + 0 * 0.1) = -60 by norm_num]
      rw [min_eq_right (by norm_num : (-60 : ℚ) ≤ 100), max_eq_left (by norm_num : (-60 : ℚ) ≤ 0)]
    unfold circuitry_integrity
    rw [hv, e0]

theorem hexDigitChar_valid (n : ℕ) (hn : n < 16) :
    isHexUpperDigit (hexDigitChar n) = true := by
  interval_cases n <;> decide

theorem toHexUpperList_ne_nil (n : ℕ) : toHexUpperList n ≠ [] := by
  rw [toHexUpperList]
  split
  · simp
  · simp

theorem toHexUpperList_all (n : ℕ) :
    ∀ c ∈ toHexUpperList n, isHexUpperDigit c = true := by
  induction n using Nat.strong_induction_on with
  | _ n ih =>
    rw [toHexUpperList]
    split
    case isTrue hlt =>
      intro c hc
      rw [List.mem_singleton] at hc
      subst hc
      exact hexDigitChar_valid n hlt
    case isFalse hge =>
      intro c hc
      rcases List.mem_append.mp hc with h1 | h2
      · exact ih (n / 16) (Nat.div_lt_self (by omega) (by omega)) c h1
      · rw [List.mem_singleton] at h2
        subst h2
        exact hexDigitChar_valid (n % 16) (Nat.mod_lt _ (by omega))

/-- C7: the Hexadecimal Energy Flow attribute is the truncated magnitude
`(active_load + total_io)*10^6 + temp*10^3` masked to its low 40 bits and
rendered as "0x" followed by at least one uppercase hex digit; the masked
value never exceeds 2^40 - 1. -/
theorem C7_hex_energy_flow_format :
    (∀ (r : FluxRand) (data : Snapshot),
      lookupK "Hexadecimal Energy Flow (Sim)" (calculate_conceptual_flux_metrics r data) =
        some (.str (hex_energy_flow (active_load_of data) (total_io_of data)
          (getNum data "CPU Temp (°C)")))) ∧
    (∀ active_load total_io temp_c : ℚ,
      hex_energy_flow active_load total_io temp_c =
        "0x" ++ String.mk (toHexUpperList (hex_flow_masked active_load total_io temp_c)) ∧
      matchesHexPattern (hex_energy_flow active_load total_io temp_c) = true ∧
      hex_flow_masked active_load total_io temp_c ≤ 2 ^ 40 - 1) := by
  refine ⟨flux_hex_lookup, ?_⟩
  intro active_load total_io temp_c
  refine ⟨rfl, ?_, ?_⟩
  · have hne := toHexUpperList_ne_nil (hex_flow_masked active_load total_io temp_c)
    have hall := toHexUpperList_all (hex_flow_masked active_load total_io temp_c)
    unfold hex_energy_flow matchesHexPattern
    rcases hl : toHexUpperList (hex_flow_masked active_load total_io temp_c) with _ | ⟨c, cs⟩
    · exact absurd hl hne
    · have hdata : ("0x" ++ String.mk (c :: cs)).data = '0' :: 'x' :: c :: cs := rfl
      rw [hdata]
      simp only [List.isEmpty_cons, Bool.not_false, Bool.true_and]
      rw [List.all_eq_true]
      intro x hx
      exact hall x (by rw [hl]; exact hx)
  · unfold hex_flow_masked
    have h0 : (0 : ℤ) < 2 ^ 40 := by norm_num
    have h1 := Int.emod_lt_of_pos (hex_flow_magnitude active_load total_io temp_c) h0
    have h2 := Int.emod_nonneg (hex_flow_magnitude active_load total_io temp_c)
      (by norm_num : (2 : ℤ) ^ 40 ≠ 0)
    omega

/-! ## C2: the Top CPU Process attribute -/
/-- C2 (code bug): `_get_process_data` computes the sorted process list and
formats the winner, but assigns it to the misspelled dead local
`top_cpu_proc` (monitor.py:122) instead of `top_cpu_process`
(monitor.py:109), so the returned attribute is always the sentinel "N/A" —
here evaluated at an input with one readable process at 50% CPU, where the
claim requires "chrome (50.0%)". -/
theorem C2_top_cpu_always_na :
    (∀ procs : List (Option ProcInfo), top_cpu_process procs = "N/A") ∧
    lookupK "Top CPU Process"
      (get_process_data ⟨1, [some ⟨"chrome", 50⟩], 1, 1, 4⟩) = some (.str "N/A") := by
  refine ⟨fun procs => rfl, ?_⟩
  simp [get_process_data, lookupK, top_cpu_process]

/-! ## C10 and C1: the failure path -/
/-- If any sub-stage raises, the try-block result is `error` carrying the
first raised message. -/
theorem collect_data_error (h : HostEnv) (env : CallEnv) (st : RateState) (e : String)
    (hf : firstFailure env = some e) :
    (collect_data h env st).1 = .error e := by
  obtain ⟨ct, ts, cpu, mem, gpu, sens, io, proc, fr⟩ := env
  obtain ⟨iod, ion, ioc, iop, lat⟩ := io
  rcases cpu with e1 | c1
  · simp only [firstFailure, Option.some.injEq] at hf
    subst hf
    rfl
  rcases mem with e2 | m1
  · simp only [firstFailure, Option.some.injEq] at hf
    subst hf
    rfl
  rcases sens with e3 | s1
  · simp only [firstFailure, Option.some.injEq] at hf
    subst hf
    rfl
  rcases iod with e4 | d1
  · simp only [firstFailure, Option.some.injEq] at hf
    subst hf
    rfl
  rcases ion with e5 | n1
  · simp only [firstFailure, Option.some.injEq] at hf
    subst hf
    rfl
  rcases ioc with e6 | c2
  · simp only [firstFailure, Option.some.injEq] at hf
    subst hf
    rfl
  rcases iop with e7 | p2
  · simp only [firstFailure, Option.some.injEq] at hf
    subst hf
    rfl
  rcases proc with e8 | p1
  · simp only [firstFailure, Option.some.injEq] at hf
    subst hf
    rfl
  · exact Option.noConfusion hf

/-- C10: whenever any sub-stage raises, the call returns the dict with
exactly the single key "Error", whose value is the wrapped message of the
first raised exception. -/
theorem C10_error_map (h : HostEnv) (env : CallEnv) (st : RateState) (e : String)
    (hf : firstFailure env = some e) :
    (get_detailed_system_data h env st).1 =
      [("Error", .str ("Failed to collect data: " ++ e))] ∧
    keysOf (get_detailed_system_data h env st).1 = ["Error"] := by
  have hc := collect_data_error h env st e hf
  unfold get_detailed_system_data
  rcases hres : collect_data h env st with ⟨r, st1⟩
  rw [hres] at hc
  simp only at hc
  subst hc
  exact ⟨rfl, rfl⟩

/-- C10 witness: a call whose CPU stage raises "boom". -/
theorem C10_error_map_witness :
    (get_detailed_system_data hostEx0 envCpuFail stEx0).1 =
      [("Error", .str ("Failed to collect data: " ++ "boom"))] ∧
    keysOf (get_detailed_system_data hostEx0 envCpuFail stEx0).1 = ["Error"] :=
  C10_error_map hostEx0 envCpuFail stEx0 "boom" rfl

/-- C1 counterexample: with all stages succeeding except the process stage,
the call is reported as failed (single "Error" key) while the collector's
last-sample timestamp has advanced from 0 to the current call time 5 — so
RateState is NOT untouched by a failed call. -/
theorem C1_counterexample :
    keysOf (get_detailed_system_data hostEx0 envProcFail stEx0).1 = ["Error"] ∧
    stEx0.last_call_time = 0 ∧
    (get_detailed_system_data hostEx0 envProcFail stEx0).2.last_call_time = 5 ∧
    (5 : ℚ) ≠ 0 :=
  ⟨rfl, rfl, rfl, by norm_num⟩

/-- C1 (amended): a sub-stage exception before the disk-counter read (CPU,
memory, sensors, or the disk read itself) leaves RateState exactly as it
was; but an exception in the process stage — raised after the rate stage —
still fails the whole call while RateState has already advanced, in
particular the last timestamp equals the failed call's current time. -/
theorem C1_rate_state_amended (h : HostEnv) (env : CallEnv) (st : RateState) :
    ((isFail env.cpu = true ∨ isFail env.mem = true ∨ isFail env.sensors = true ∨
        isFail env.io_env.disk = true) →
      (get_detailed_system_data h env st).2 = st) ∧
    (isFail env.cpu = false → isFail env.mem = false → isFail env.sensors = false →
      isFail env.io_env.disk = false → isFail env.io_env.net = false →
      isFail env.io_env.connections = false → isFail env.io_env.partitions = false →
      isFail env.proc = true →
      keysOf (get_detailed_system_data h env st).1 = ["Error"] ∧
      (get_detailed_system_data h env st).2.last_call_time = env.current_time) := by
  obtain ⟨ct, ts, cpu, mem, gpu, sens, io, proc, fr⟩ := env
  obtain ⟨iod, ion, ioc, iop, lat⟩ := io
  constructor
  · intro hfail
    rcases cpu with e1 | c1
    · rfl
    rcases mem with e2 | m1
    · rfl
    rcases sens with e3 | s1
    · rfl
    rcases iod with e4 | d1
    · rfl
    · simp [isFail] at hfail
  · intro h1 h2 h3 h4 h5 h6 h7 h8
    rcases cpu with e1 | c1
    · simp [isFail] at h1
    rcases mem with e2 | m1
    · simp [isFail] at h2
    rcases sens with e3 | s1
    · simp [isFail] at h3
    rcases iod with e4 | d1
    · simp [isFail] at h4
    rcases ion with e5 | n1
    · simp [isFail] at h5
    rcases ioc with e6 | c2
    · simp [isFail] at h6
    rcases iop with e7 | p2
    · simp [isFail] at h7
    rcases proc with e8 | p1
    · exact ⟨rfl, rfl⟩
    · simp [isFail] at h8

/-- C1 witness: a CPU-stage failure leaves the state untouched, and a
process-stage failure leaves the timestamp advanced to the call time. -/
theorem C1_rate_state_amended_witness :
    (get_detailed_system_data hostEx0 envCpuFail stEx0).2 = stEx0 ∧
    (get_detailed_system_data hostEx0 envProcFail stEx0).2.last_call_time = 5 :=
  ⟨(C1_rate_state_amended hostEx0 envCpuFail stEx0).1 (Or.inl rfl),
   ((C1_rate_state_amended hostEx0 envProcFail stEx0).2
     rfl rfl rfl rfl rfl rfl rfl rfl).2⟩

/-- Every successful call's snapshot has exactly the 48 documented keys, in
order. -/
theorem collect_data_keys (h : HostEnv) (env : CallEnv) (st : RateState)
    (hok : isOkE (collect_data h env st).1 = true) :
    Except.map keysOf (collect_data h env st).1 = .ok snapshotKeys := by
  obtain ⟨ct, ts, cpu, mem, gpu, sens, io, proc, fr⟩ := env
  obtain ⟨iod, ion, ioc, iop, lat⟩ := io
  rcases cpu with e1 | c1
  · simp [collect_data, isOkE] at hok
  rcases mem with e2 | m1
  · simp [collect_data, isOkE] at hok
  rcases sens with e3 | s1
  · simp [collect_data, isOkE] at hok
  rcases iod with e4 | d1
  · simp [collect_data, get_io_data, isOkE] at hok
  rcases ion with e5 | n1
  · simp [collect_data, get_io_data, isOkE] at hok
  rcases ioc with e6 | c2
  · simp [collect_data, get_io_data, isOkE] at hok
  rcases iop with e7 | p2
  · simp [collect_data, get_io_data, isOkE] at hok
  rcases proc with e8 | p1
  · simp [collect_data, get_io_data, isOkE] at hok
  simp only [collect_data, get_io_data, calculate_conceptual_flux_metrics, Except.map,
    Except.ok.injEq]
  refine keysOf_updateMany_eq _ _
    ["Operating System", "System Architecture", "CPU Model (Sim)", "Python Version", "Total RAM (GB)", "Boot Time", "Timestamp", "CPU Usage (%)", "CPU Freq (GHz)", "Logical Cores", "Physical Cores", "CPU User Time (%)", "CPU System Time (%)", "CPU Idle Time (%)", "CPU Iowait Time (%)", "Memory Usage (%)", "Used Memory (GB)", "Available Memory (GB)", "Cached Memory (GB)", "Swap Usage (%)", "Used Swap (GB)", "Shared Memory (GB)", "GPU Usage (%)", "GPU Memory (GB)", "GPU Temp (°C)", "CPU Temp (°C)", "Fan Speed (%)", "Disk Read Rate (MB/s)", "Disk Write Rate (MB/s)", "Net Sent (MB/s)", "Net Received (MB/s)", "Network Total Connections", "Disk Total Partitions", "Network Packet Errors", "Disk I/O Latency (Sim/ms)", "Running Processes", "Top CPU Process", "System Uptime (h)", "Login Users", "Open File Descriptors (Sim)"]
    ["Energetic Flux (Sim)", "Transistor State Change Rate (Sim)", "Circuitry Integrity (Sim)", "Binary Data Byte Transit (Sim)", "Hexadecimal Energy Flow (Sim)", "Software-Hardware I/O Saturation (Sim)", "Electrical Controlled Pulses (Sim)", "Unwanted Transit Purity Check (Sim)"] _ ?_ (keysOf_flux_entries fr _) (by decide) (by decide)
  refine keysOf_updateMany_eq _ _
    ["Operating System", "System Architecture", "CPU Model (Sim)", "Python Version", "Total RAM (GB)", "Boot Time", "Timestamp", "CPU Usage (%)", "CPU Freq (GHz)", "Logical Cores", "Physical Cores", "CPU User Time (%)", "CPU System Time (%)", "CPU Idle Time (%)", "CPU Iowait Time (%)", "Memory Usage (%)", "Used Memory (GB)", "Available Memory (GB)", "Cached Memory (GB)", "Swap Usage (%)", "Used Swap (GB)", "Shared Memory (GB)", "GPU Usage (%)", "GPU Memory (GB)", "GPU Temp (°C)", "CPU Temp (°C)", "Fan Speed (%)", "Disk Read Rate (MB/s)", "Disk Write Rate (MB/s)", "Net Sent (MB/s)", "Net Received (MB/s)", "Network Total Connections", "Disk Total Partitions", "Network Packet Errors", "Disk I/O Latency (Sim/ms)"]
    ["Running Processes", "Top CPU Process", "System Uptime (h)", "Login Users", "Open File Descriptors (Sim)"] _ ?_ (keysOf_proc p1) (by decide) (by decide)
  refine keysOf_updateMany_eq _ _
    ["Operating System", "System Architecture", "CPU Model (Sim)", "Python Version", "Total RAM (GB)", "Boot Time", "Timestamp", "CPU Usage (%)", "CPU Freq (GHz)", "Logical Cores", "Physical Cores", "CPU User Time (%)", "CPU System Time (%)", "CPU Idle Time (%)", "CPU Iowait Time (%)", "Memory Usage (%)", "Used Memory (GB)", "Available Memory (GB)", "Cached Memory (GB)", "Swap Usage (%)", "Used Swap (GB)", "Shared Memory (GB)", "GPU Usage (%)", "GPU Memory (GB)", "GPU Temp (°C)", "CPU Temp (°C)", "Fan Speed (%)"]
    ["Disk Read Rate (MB/s)", "Disk Write Rate (MB/s)", "Net Sent (MB/s)", "Net Received (MB/s)", "Network Total Connections", "Disk Total Partitions", "Network Packet Errors", "Disk I/O Latency (Sim/ms)"] _ ?_ rfl (by decide) (by decide)
  refine keysOf_updateMany_eq _ _
    ["Operating System", "System Architecture", "CPU Model (Sim)", "Python Version", "Total RAM (GB)", "Boot Time", "Timestamp", "CPU Usage (%)", "CPU Freq (GHz)", "Logical Cores", "Physical Cores", "CPU User Time (%)", "CPU System Time (%)", "CPU Idle Time (%)", "CPU Iowait Time (%)", "Memory Usage (%)", "Used Memory (GB)", "Available Memory (GB)", "Cached Memory (GB)", "Swap Usage (%)", "Used Swap (GB)", "Shared Memory (GB)", "GPU Usage (%)", "GPU Memory (GB)", "GPU Temp (°C)"]
    ["CPU Temp (°C)", "Fan Speed (%)"] _ ?_ (keysOf_sensor s1) (by decide) (by decide)
  refine keysOf_updateMany_eq _ _
    ["Operating System", "System Architecture", "CPU Model (Sim)", "Python Version", "Total RAM (GB)", "Boot Time", "Timestamp", "CPU Usage (%)", "CPU Freq (GHz)", "Logical Cores", "Physical Cores", "CPU User Time (%)", "CPU System Time (%)", "CPU Idle Time (%)", "CPU Iowait Time (%)", "Memory Usage (%)", "Used Memory (GB)", "Available Memory (GB)", "Cached Memory (GB)", "Swap Usage (%)", "Used Swap (GB)", "Shared Memory (GB)"]
    ["GPU Usage (%)", "GPU Memory (GB)", "GPU Temp (°C)"] _ ?_ (keysOf_gpu gpu) (by decide) (by decide)
  refine keysOf_updateMany_eq _ _
    ["Operating System", "System Architecture", "CPU Model (Sim)", "Python Version", "Total RAM (GB)", "Boot Time", "Timestamp", "CPU Usage (%)", "CPU Freq (GHz)", "Logical Cores", "Physical Cores", "CPU User Time (%)", "CPU System Time (%)", "CPU Idle Time (%)", "CPU Iowait Time (%)"]
    ["Memory Usage (%)", "Used Memory (GB)", "Available Memory (GB)", "Cached Memory (GB)", "Swap Usage (%)", "Used Swap (GB)", "Shared Memory (GB)"] _ ?_ (keysOf_mem m1) (by decide) (by decide)
  refine keysOf_updateMany_eq _ _
    ["Operating System", "System Architecture", "CPU Model (Sim)", "Python Version", "Total RAM (GB)", "Boot Time", "Timestamp"]
    ["CPU Usage (%)", "CPU Freq (GHz)", "Logical Cores", "Physical Cores", "CPU User Time (%)", "CPU System Time (%)", "CPU Idle Time (%)", "CPU Iowait Time (%)"] _ ?_ (keysOf_cpu c1) (by decide) (by decide)
  refine keysOf_setK_eq _ _ _
    ["Operating System", "System Architecture", "CPU Model (Sim)", "Python Version", "Total RAM (GB)", "Boot Time"]
    _ ?_ (by decide) (by decide)
  exact keysOf_updateMany_eq _ _ ([] : List String)
    ["Operating System", "System Architecture", "CPU Model (Sim)", "Python Version", "Total RAM (GB)", "Boot Time"] _ rfl (keysOf_static h) (by decide) (by decide)

/-- C3: the key set of the snapshot is identical across any two consecutive
successful calls on the same collector, whatever each call's platform
capability (GPU present or absent, sensors present or absent): both key
lists equal the fixed 48-key `snapshotKeys`, so no documented attribute is
ever omitted from a successful snapshot. -/
theorem C3_keyset_stable (h : HostEnv) (env1 env2 : CallEnv) (st : RateState)
    (h1 : isOkE (collect_data h env1 st).1 = true)
    (h2 : isOkE (collect_data h env2 (collect_data h env1 st).2).1 = true) :
    Except.map keysOf (collect_data h env1 st).1 =
      Except.map keysOf (collect_data h env2 (collect_data h env1 st).2).1 := by
  rw [collect_data_keys h env1 st h1, collect_data_keys h env2 _ h2]

/-- C3 witness: two consecutive successful calls, the first with no GPU
device (simulated fallback), the second with a real GPU device. -/
theorem C3_keyset_stable_witness :
    isOkE (collect_data hostEx0 envAllOk stEx0).1 = true ∧
    isOkE (collect_data hostEx0 envAllOk2 (collect_data hostEx0 envAllOk stEx0).2).1 = true ∧
    Except.map keysOf (collect_data hostEx0 envAllOk stEx0).1 =
      Except.map keysOf
        (collect_data hostEx0 envAllOk2 (collect_data hostEx0 envAllOk stEx0).2).1 :=
  ⟨rfl, rfl, C3_keyset_stable hostEx0 envAllOk envAllOk2 stEx0 rfl rfl⟩
